import Mathlib

/-!
# Verification of the BlueZ Health Thermometer profile core

A shallow embedding of `profiles/thermometer/thermometer.c`: the measurement
codec, the per-adapter watcher registry with its CCC (client characteristic
configuration) writes, and the property / measurement dispatch functions,
together with theorems about them.

Bytes are modelled as `Nat` (each `< 256` where it matters), byte buffers as
`List Nat`, machine integers as `Nat`/`Int` with explicit reductions modulo
powers of two.  GLib singly-linked lists (`GSList`) are `List`; `g_slist_remove`
is `List.erase` (first occurrence), `g_slist_prepend` is cons,
`g_slist_find_custom` is `List.find?`.  D-Bus / GATT side effects are made
explicit: functions return the lists of CCC writes, property-changed signals
and watcher notifications they would emit.
-/

namespace BlueZThermometer

/-! ## Constants (thermometer.c and the GATT headers it includes) -/

/-- Temperature measurement flag field: units bit. -/
def TEMP_UNITS : Nat := 0x01

/-- Temperature measurement flag field: timestamp-present bit. -/
def TEMP_TIME_STAMP : Nat := 0x02

/-- Temperature measurement flag field: type-present bit. -/
def TEMP_TYPE : Nat := 0x04

/-- `FLOAT_MAX_MANTISSA`, 2^24: subtracted for the two's-complement
mantissa correction. -/
def FLOAT_MAX_MANTISSA : Int := 16777216

/-- 16-bit Bluetooth UUID of the Temperature Measurement characteristic,
as the string form used by `thermometer.c`. -/
def TEMPERATURE_MEASUREMENT_UUID : String := "00002a1c-0000-1000-8000-00805f9b34fb"

/-- 16-bit Bluetooth UUID of the Intermediate Temperature characteristic. -/
def INTERMEDIATE_TEMPERATURE_UUID : String := "00002a1e-0000-1000-8000-00805f9b34fb"

/-- 16-bit Bluetooth UUID of the Temperature Type characteristic. -/
def TEMPERATURE_TYPE_UUID : String := "00002a1d-0000-1000-8000-00805f9b34fb"

/-- 16-bit Bluetooth UUID of the Measurement Interval characteristic. -/
def MEASUREMENT_INTERVAL_UUID : String := "00002a21-0000-1000-8000-00805f9b34fb"

/-- Client Characteristic Configuration descriptor UUID (uuid16). -/
def GATT_CLIENT_CHARAC_CFG_UUID : Nat := 0x2902

/-- Valid Range descriptor UUID (uuid16). -/
def GATT_CHARAC_VALID_RANGE_UUID : Nat := 0x2906

/-- CCC value bit enabling indications. -/
def GATT_CLIENT_CHARAC_CFG_IND_BIT : Nat := 0x0002

/-- CCC value bit enabling notifications. -/
def GATT_CLIENT_CHARAC_CFG_NOTIF_BIT : Nat := 0x0001

/-! ## Byte-buffer primitives (att.h helpers) -/

/-- `att_get_u16(&buf[i])`: little-endian 16-bit load at offset `i`.
Out-of-range reads never happen in the guarded call sites; `getD` supplies 0. -/
def att_get_u16 (buf : List Nat) (i : Nat) : Nat :=
  buf.getD i 0 + 256 * buf.getD (i + 1) 0

/-- `att_get_u32(buf)`: little-endian 32-bit load at offset 0. -/
def att_get_u32 (buf : List Nat) : Nat :=
  buf.getD 0 0 + 256 * buf.getD 1 0 + 65536 * buf.getD 2 0
    + 16777216 * buf.getD 3 0

/-! ## The measurement value field decoder (proc_measurement, lines 1058-1065)

`raw` is the little-endian 32-bit value field.  The C code computes

    m.mant = raw & 0x00FFFFFF;
    m.exp = ((int32_t) raw) >> 24;
    if (m.mant & 0x00800000)
            m.mant = m.mant - FLOAT_MAX_MANTISSA;
-/

/-- Reinterpretation `(int32_t) raw` of a 32-bit unsigned value as signed
two's complement. -/
def int32_of_u32 (raw : Nat) : Int :=
  if raw < 2 ^ 31 then (raw : Int) else (raw : Int) - 2 ^ 32

/-- C arithmetic right shift by 24 of a signed value: floor division
by 2^24 (gcc semantics of `>> 24` on a negative `int32_t`). -/
def asr24 (x : Int) : Int := Int.fdiv x (2 ^ 24)

/-- The mantissa field: `raw & 0x00FFFFFF`, corrected by `- FLOAT_MAX_MANTISSA`
when bit 23 (`0x00800000`) is set. -/
def meas_mant (raw : Nat) : Int :=
  let m0 : Int := ((raw &&& 0xFFFFFF : Nat) : Int)
  if (raw &&& 0xFFFFFF) &&& 0x800000 ≠ 0 then m0 - FLOAT_MAX_MANTISSA else m0

/-- The exponent field: `((int32_t) raw) >> 24`. -/
def meas_exp (raw : Nat) : Int := asr24 (int32_of_u32 raw)

/-- Modelled from the spec: the re-encoder for the mantissa/exponent pair of
the measurement value field (the repository has no encoder; the spec's
round-trip property needs the inverse packing: exponent into the high byte,
mantissa into the low 24 bits, both two's complement). -/
def encode_mant_exp (mant e : Int) : Nat :=
  (e % 256).toNat * 2 ^ 24 + (mant % 2 ^ 24).toNat

/-! ### Arithmetic characterization of the decoder -/

lemma and_mask24 (n : Nat) : n &&& 0xFFFFFF = n % 2 ^ 24 := by
  have h : (0xFFFFFF : Nat) = 2 ^ 24 - 1 := by norm_num
  rw [h, Nat.and_pow_two_sub_one_eq_mod]

lemma and_bit23_ne_zero_iff (n : Nat) :
    (n &&& 0x800000 ≠ 0) ↔ n / 2 ^ 23 % 2 = 1 := by
  have h : (0x800000 : Nat) = 2 ^ 23 := by norm_num
  rw [h, Nat.and_two_pow, Nat.testBit_to_div_mod]
  rcases Nat.mod_two_eq_zero_or_one (n / 2 ^ 23) with h2 | h2 <;> simp [h2]

lemma meas_mant_eq (raw : Nat) :
    meas_mant raw =
      if raw % 2 ^ 24 < 2 ^ 23 then ((raw % 2 ^ 24 : Nat) : Int)
      else ((raw % 2 ^ 24 : Nat) : Int) - 2 ^ 24 := by
  unfold meas_mant FLOAT_MAX_MANTISSA
  simp only [and_mask24]
  have hb := and_bit23_ne_zero_iff (raw % 2 ^ 24)
  have hlt : raw % 2 ^ 24 < 2 ^ 24 := Nat.mod_lt _ (by norm_num)
  by_cases hbit : (raw % 2 ^ 24) &&& 0x800000 ≠ 0
  · have h1 : raw % 2 ^ 24 / 2 ^ 23 % 2 = 1 := hb.mp hbit
    rw [if_pos hbit, if_neg (by omega)]
    norm_num
  · have h1 : ¬ raw % 2 ^ 24 / 2 ^ 23 % 2 = 1 := fun h => hbit (hb.mpr h)
    rw [if_neg hbit, if_pos (by omega)]

lemma meas_exp_eq (raw : Nat) (h : raw < 2 ^ 32) :
    meas_exp raw =
      if raw / 2 ^ 24 < 2 ^ 7 then ((raw / 2 ^ 24 : Nat) : Int)
      else ((raw / 2 ^ 24 : Nat) : Int) - 2 ^ 8 := by
  unfold meas_exp asr24 int32_of_u32
  rw [Int.fdiv_eq_ediv _ (by norm_num)]
  by_cases h31 : raw < 2 ^ 31 <;> simp only [h31, if_pos, if_neg, reduceIte] <;> omega

lemma meas_mant_bounds (raw : Nat) :
    -(2 ^ 23) ≤ meas_mant raw ∧ meas_mant raw < 2 ^ 23 := by
  rw [meas_mant_eq]
  have hlt : raw % 2 ^ 24 < 2 ^ 24 := Nat.mod_lt _ (by norm_num)
  by_cases h : raw % 2 ^ 24 < 2 ^ 23 <;> simp only [h, if_pos, if_neg, reduceIte] <;>
    constructor <;> omega

lemma encode_decode_roundtrip (raw : Nat) (h : raw < 2 ^ 32) :
    encode_mant_exp (meas_mant raw) (meas_exp raw) = raw := by
  rw [meas_mant_eq, meas_exp_eq raw h]
  unfold encode_mant_exp
  have h24 : raw % 2 ^ 24 < 2 ^ 24 := Nat.mod_lt _ (by norm_num)
  have h8 : raw / 2 ^ 24 < 2 ^ 8 := by omega
  by_cases hm : raw % 2 ^ 24 < 2 ^ 23 <;> by_cases he : raw / 2 ^ 24 < 2 ^ 7 <;>
    simp only [hm, he, if_pos, if_neg, reduceIte] <;> omega

/-! ## Data model -/

/-- `struct descriptor`: attribute handle and (16-bit) UUID. -/
structure descriptor where
  handle : Nat
  uuid : Nat
deriving DecidableEq, Repr

/-- `struct characteristic`: the fields of `attr` that the profile core reads
(UUID string, value handle), plus the discovered descriptors. -/
structure characteristic where
  uuid : String
  value_handle : Nat
  descs : List descriptor
deriving DecidableEq, Repr

/-- `struct thermometer`: the device identity (`dev`, an opaque id),
connectivity (`attrib != NULL`), discovered characteristics and the cached
property state.  `intermediate` is a `gboolean` (C int), kept as `Nat`;
`ttype` is the C field `type` (a Lean keyword). -/
structure thermometer where
  dev : Nat
  connected : Bool
  chars : List characteristic
  intermediate : Nat
  ttype : Nat
  interval : Nat
  max : Nat
  min : Nat
  has_type : Bool
  has_interval : Bool
deriving DecidableEq, Repr

/-- `thermometer_register` (lines 1237-1242): the thermometer is allocated
with `g_new0`, so every cached field starts zero/false; only `dev` and the
service range are filled in. -/
def thermometer_register (dev : Nat) : thermometer :=
  { dev := dev, connected := false, chars := [], intermediate := 0, ttype := 0,
    interval := 0, max := 0, min := 0, has_type := false, has_interval := false }

/-- `get_characteristic`: linear scan of `t->chars` by UUID string. -/
def get_characteristic (t : thermometer) (uuid : String) : Option characteristic :=
  t.chars.find? (fun ch => ch.uuid = uuid)

/-- `get_descriptor`: linear scan of `ch->desc` by (16-bit) UUID. -/
def get_descriptor (ch : characteristic) (uuid : Nat) : Option descriptor :=
  ch.descs.find? (fun d => d.uuid = uuid)

/-! ## Property dispatch (change_property, lines 299-341) -/

/-- `change_property(t, name, value)`.  The `gpointer value` is modelled as a
`Nat` machine word (the `gboolean` for `Intermediate`, a `uint16_t` for the
others).  Returns the updated thermometer and the list of property-changed
signals emitted (by property name). -/
def change_property (t : thermometer) (name : String) (value : Nat) :
    thermometer × List String :=
  if name = "Intermediate" then
    if t.intermediate = value then (t, [])
    else ({ t with intermediate := value }, ["Intermediate"])
  else if name = "Interval" then
    if t.has_interval ∧ t.interval = value then (t, [])
    else ({ t with has_interval := true, interval := value }, ["Interval"])
  else if name = "Maximum" then
    if t.max = value then (t, [])
    else ({ t with max := value }, ["Maximum"])
  else if name = "Minimum" then
    if t.min = value then (t, [])
    else ({ t with min := value }, ["Minimum"])
  else
    (t, [])   -- DBG("%s is not a thermometer property", name)

/-! ## Valid Range descriptor read callback (valid_range_desc_cb, 343-378)

The transport outcome (`status != 0`, `dec_read_resp` protocol error) is
external; `value` is the descriptor value returned by the read, `vlen` its
length. -/

/-- `valid_range_desc_cb` after a successful read that produced `value`. -/
def valid_range_desc_cb (t : thermometer) (value : List Nat) :
    thermometer × List String :=
  if value.length < 4 then (t, [])          -- "Invalid range received"
  else
    let mn := att_get_u16 value 0
    let mx := att_get_u16 value 2
    if mn = 0 ∨ mn > mx then (t, [])        -- "Invalid range"
    else
      let r1 := change_property t "Maximum" mx
      let r2 := change_property r1.1 "Minimum" mn
      (r2.1, r1.2 ++ r2.2)

/-! ## The Measurement Interval write path (write_attr_interval, 663-689) -/

/-- D-Bus replies produced by the IPC-facing operations
(`btd_error_*` and the plain method return). -/
inductive dbus_reply
  | ok
  | not_connected
  | not_available
  | invalid_arguments
  | already_exists
  | does_not_exist
deriving DecidableEq, Repr

/-- A GATT attribute write submitted with `gatt_write_char`:
(attribute handle, 16-bit value). -/
structure gatt_write where
  handle : Nat
  value : Nat
deriving DecidableEq, Repr

/-- `write_attr_interval(t, msg, value)`.  Returns the (unchanged) thermometer,
the D-Bus reply and the list of transport writes issued.  The cached state is
only ever changed later, by `write_interval_cb` on write confirmation. -/
def write_attr_interval (t : thermometer) (value : Nat) :
    thermometer × dbus_reply × List gatt_write :=
  if t.connected = false then (t, .not_connected, [])
  else
    match get_characteristic t MEASUREMENT_INTERVAL_UUID with
    | none => (t, .not_available, [])
    | some ch =>
      if value < t.min ∨ value > t.max then (t, .invalid_arguments, [])
      else (t, .ok, [⟨ch.value_handle, value⟩])

/-- `write_interval_cb` (641-661): on a successful, well-formed write response
apply the `Interval` property change; otherwise nothing. -/
def write_interval_cb (t : thermometer) (success : Bool) (interval : Nat) :
    thermometer × List String :=
  if success then change_property t "Interval" interval else (t, [])

/-! ## The measurement record decoder (proc_measurement, 1024-1111) -/

/-- The `temp_type[]` table. -/
def temp_type : List String :=
  ["<reserved>", "armpit", "body", "ear", "finger", "intestines",
   "mouth", "rectum", "toe", "tympanum"]

/-- `temptype2str`: `NULL` (here `none`) for 0 and for codes past the table. -/
def temptype2str (value : Nat) : Option String :=
  if 0 < value ∧ value < temp_type.length then some (temp_type.getD value "")
  else none     -- error("Temperature type %d reserved for future use")

/-- `struct measurement` as filled in by `proc_measurement`.  The timestamp is
kept as the raw decoded calendar fields `(year, month, day, hour, minute,
second)` read from the wire (`some` iff `suptime` is set); the
`mktime` local-calendar conversion is libc, outside the profile core.
`mtype` is the C field `type`; `none` models a `NULL` string. -/
structure measurement where
  exp : Int
  mant : Int
  time : Option (Nat × Nat × Nat × Nat × Nat × Nat)
  unit : String
  mtype : Option String
  value : String
deriving DecidableEq, Repr

/-- The timestamp section of `proc_measurement` (1070-1093): `none` models the
truncated early return, otherwise the optional raw fields and the rest of the
buffer. -/
def proc_timestamp (flags : Nat) (p : List Nat) :
    Option (Option (Nat × Nat × Nat × Nat × Nat × Nat) × List Nat) :=
  if flags &&& TEMP_TIME_STAMP ≠ 0 then
    if p.length < 7 then none    -- "Time stamp is not provided"
    else some (some (att_get_u16 p 0, p.getD 2 0, p.getD 3 0,
                     p.getD 4 0, p.getD 5 0, p.getD 6 0), p.drop 7)
  else some (none, p)

/-- The type section of `proc_measurement` (1095-1104): `none` models the
truncated early return, otherwise the (possibly `NULL`) type string. -/
def proc_type (t : thermometer) (flags : Nat) (p : List Nat) :
    Option (Option String) :=
  if flags &&& TEMP_TYPE ≠ 0 then
    if p.length < 1 then none    -- "Temperature type is not provided"
    else some (temptype2str (p.getD 0 0))
  else if t.has_type then some (temptype2str t.ttype)
  else some none

/-- `proc_measurement(t, pdu, len, final)`: decode the indication/notification
payload (3-byte transport header included).  `none` models every truncated
early return, in which case no measurement is delivered. -/
def proc_measurement (t : thermometer) (pdu : List Nat) (final : Bool) :
    Option measurement :=
  let p1 := pdu.drop 3                       -- skip opcode and handle
  if p1.length < 1 then none                 -- "Mandatory flags are not provided"
  else
    let flags := p1.getD 0 0
    let unit := if flags &&& TEMP_UNITS ≠ 0 then "fahrenheit" else "celsius"
    let p2 := p1.drop 1
    if p2.length < 4 then none               -- "Mandatory temperature measurement value ..."
    else
      let raw := att_get_u32 p2
      let p3 := p2.drop 4
      match proc_timestamp flags p3 with
      | none => none
      | some (ts, p4) =>
        match proc_type t flags p4 with
        | none => none
        | some ty =>
          some { exp := meas_exp raw, mant := meas_mant raw, time := ts,
                 unit := unit, mtype := ty,
                 value := if final then "final" else "intermediate" }

/-- A watcher key: (D-Bus sender a.k.a. `srv`, object path). -/
abbrev watcher_key := String × String

/-- `recv_measurement` (1010-1022): choose the watcher list by classification;
`update_watcher` is then invoked once per member. -/
def recv_measurement (fwatchers iwatchers : List watcher_key)
    (m : measurement) : List watcher_key :=
  if m.value = "intermediate" then iwatchers else fwatchers

/-- The watchers notified by one `proc_measurement` call: none when decoding
aborted, the selected watcher list otherwise. -/
def proc_measurement_notify (fwatchers iwatchers : List watcher_key)
    (t : thermometer) (pdu : List Nat) (final : Bool) : List watcher_key :=
  match proc_measurement t pdu final with
  | none => []
  | some m => recv_measurement fwatchers iwatchers m

/-- `proc_measurement_interval` (1113-1126). -/
def proc_measurement_interval (t : thermometer) (pdu : List Nat) :
    thermometer × List String :=
  if pdu.length < 5 then (t, [])   -- "Measurement interval value is not provided"
  else change_property t "Interval" (att_get_u16 pdu 3)

/-- Outcome of `ind_handler`: resulting thermometer state, watchers notified,
and whether a confirmation frame was sent back (`enc_confirmation` +
`g_attrib_send`). -/
structure ind_result where
  t : thermometer
  notified : List watcher_key
  confirmed : Bool
deriving DecidableEq, Repr

/-- `ind_handler` (1128-1161).  The characteristic lookup is
`g_slist_find_custom(t->chars, &handle, cmp_char_val_handle)`. -/
def ind_handler (fwatchers iwatchers : List watcher_key)
    (t : thermometer) (pdu : List Nat) : ind_result :=
  if pdu.length < 3 then ⟨t, [], false⟩     -- "Bad pdu received"
  else
    match t.chars.find? (fun ch => ch.value_handle = att_get_u16 pdu 1) with
    | none => ⟨t, [], false⟩                -- "Unexpected handle"
    | some ch =>
      if ch.uuid = TEMPERATURE_MEASUREMENT_UUID then
        ⟨t, proc_measurement_notify fwatchers iwatchers t pdu true, true⟩
      else if ch.uuid = MEASUREMENT_INTERVAL_UUID then
        ⟨(proc_measurement_interval t pdu).1, [], true⟩
      else ⟨t, [], true⟩

/-- `notif_handler` (1163-1185): like `ind_handler` but only the Intermediate
Temperature characteristic is processed and no confirmation exists. -/
def notif_handler (fwatchers iwatchers : List watcher_key)
    (t : thermometer) (pdu : List Nat) : thermometer × List watcher_key :=
  if pdu.length < 3 then (t, [])
  else
    match t.chars.find? (fun ch => ch.value_handle = att_get_u16 pdu 1) with
    | none => (t, [])
    | some ch =>
      if ch.uuid = INTERMEDIATE_TEMPERATURE_UUID then
        (t, proc_measurement_notify fwatchers iwatchers t pdu false)
      else (t, [])

/-! ## CCC writes (write_ccc, 727-757) -/

/-- One CCC write as issued by `write_ccc`: the target device, the
characteristic UUID whose CCC descriptor is written, and the 16-bit value. -/
structure ccc_write where
  dev : Nat
  uuid : String
  value : Nat
deriving DecidableEq, Repr

/-- `write_ccc(t, uuid, value)`: silently does nothing when the thermometer is
disconnected (`t->attrib == NULL`), the characteristic was not discovered, or
it has no CCC descriptor; otherwise submits exactly one write. -/
def write_ccc (t : thermometer) (uuid : String) (value : Nat) : List ccc_write :=
  if t.connected = false then []
  else
    match get_characteristic t uuid with
    | none => []                             -- "Characteristic %s not found"
    | some ch =>
      match get_descriptor ch GATT_CLIENT_CHARAC_CFG_UUID with
      | none => []                           -- "CCC descriptor for %s not found"
      | some _ => [⟨t.dev, uuid, value⟩]

/-- `g_slist_foreach(devices, enable_final_measurement, 0)` (759-765). -/
def enable_final_measurement (devices : List thermometer) : List ccc_write :=
  devices.flatMap
    (fun t => write_ccc t TEMPERATURE_MEASUREMENT_UUID GATT_CLIENT_CHARAC_CFG_IND_BIT)

/-- `g_slist_foreach(devices, enable_intermediate_measurement, 0)` (767-773). -/
def enable_intermediate_measurement (devices : List thermometer) : List ccc_write :=
  devices.flatMap
    (fun t => write_ccc t INTERMEDIATE_TEMPERATURE_UUID GATT_CLIENT_CHARAC_CFG_NOTIF_BIT)

/-- `g_slist_foreach(devices, disable_final_measurement, 0)` (775-780). -/
def disable_final_measurement (devices : List thermometer) : List ccc_write :=
  devices.flatMap (fun t => write_ccc t TEMPERATURE_MEASUREMENT_UUID 0x0000)

/-- `g_slist_foreach(devices, disable_intermediate_measurement, 0)` (782-787). -/
def disable_intermediate_measurement (devices : List thermometer) : List ccc_write :=
  devices.flatMap (fun t => write_ccc t INTERMEDIATE_TEMPERATURE_UUID 0x0000)

/-! ## The per-adapter watcher registry (struct thermometer_adapter) -/

/-- `struct thermometer_adapter`: attached thermometers and the two watcher
lists.  A watcher is identified by its `(srv, path)` pair (`cmp_watcher`). -/
structure thermometer_adapter where
  devices : List thermometer
  fwatchers : List watcher_key
  iwatchers : List watcher_key
deriving DecidableEq, Repr

/-- `find_watcher(list, sender, path)`: `g_slist_find_custom` with
`cmp_watcher`, i.e. membership of the `(srv, path)` pair. -/
def find_watcher (l : List watcher_key) (srv path : String) : Bool :=
  decide ((srv, path) ∈ l)

/-- `register_watcher` (838-869).  Returns the new adapter state, the D-Bus
reply, and the CCC writes issued.  The 0→1 final-watcher transition is tested
(`g_slist_length(fwatchers) == 0`) before the new watcher is prepended. -/
def register_watcher (ta : thermometer_adapter) (srv path : String) :
    thermometer_adapter × dbus_reply × List ccc_write :=
  if find_watcher ta.fwatchers srv path then (ta, .already_exists, [])
  else
    let writes :=
      if ta.fwatchers.length = 0 then enable_final_measurement ta.devices else []
    ({ ta with fwatchers := (srv, path) :: ta.fwatchers }, .ok, writes)

/-- `remove_int_watcher` (789-800): remove from the intermediate list if
present; disable intermediate notifications when the list becomes empty. -/
def remove_int_watcher (ta : thermometer_adapter) (w : watcher_key) :
    thermometer_adapter × List ccc_write :=
  if ¬ (w ∈ ta.iwatchers) then (ta, [])
  else
    let iw := ta.iwatchers.erase w
    ({ ta with iwatchers := iw },
     if iw.length = 0 then disable_intermediate_measurement ta.devices else [])

/-- `unregister_watcher` (871-899). -/
def unregister_watcher (ta : thermometer_adapter) (srv path : String) :
    thermometer_adapter × dbus_reply × List ccc_write :=
  if ¬ find_watcher ta.fwatchers srv path then (ta, .does_not_exist, [])
  else
    let r1 := remove_int_watcher ta (srv, path)
    let fw := r1.1.fwatchers.erase (srv, path)
    let w2 := if fw.length = 0 then disable_final_measurement r1.1.devices else []
    ({ r1.1 with fwatchers := fw }, .ok, r1.2 ++ w2)

/-- `watcher_exit` (802-817): the disconnect-triggered removal; same cleanup
as explicit unregistration, without the not-found guard. -/
def watcher_exit (ta : thermometer_adapter) (w : watcher_key) :
    thermometer_adapter × List ccc_write :=
  let r1 := remove_int_watcher ta w
  let fw := r1.1.fwatchers.erase w
  let w2 := if fw.length = 0 then disable_final_measurement r1.1.devices else []
  ({ r1.1 with fwatchers := fw }, r1.2 ++ w2)

/-- `enable_intermediate` (901-929): requires an existing final watcher, then
no existing intermediate watcher; the 0→1 transition is tested before the
prepend. -/
def enable_intermediate (ta : thermometer_adapter) (srv path : String) :
    thermometer_adapter × dbus_reply × List ccc_write :=
  if ¬ find_watcher ta.fwatchers srv path then (ta, .does_not_exist, [])
  else if find_watcher ta.iwatchers srv path then (ta, .already_exists, [])
  else
    let writes :=
      if ta.iwatchers.length = 0 then enable_intermediate_measurement ta.devices
      else []
    ({ ta with iwatchers := (srv, path) :: ta.iwatchers }, .ok, writes)

/-- `disable_intermediate` (931-952). -/
def disable_intermediate (ta : thermometer_adapter) (srv path : String) :
    thermometer_adapter × dbus_reply × List ccc_write :=
  if ¬ find_watcher ta.iwatchers srv path then (ta, .does_not_exist, [])
  else
    let r1 := remove_int_watcher ta (srv, path)
    (r1.1, .ok, r1.2)

/-! ## Reachability for the registry invariant -/

/-- The registry operations reachable from the IPC surface and from watcher
endpoint disconnects. -/
inductive registry_op
  | regFinal (srv path : String)
  | unregFinal (srv path : String)
  | enableInt (srv path : String)
  | disableInt (srv path : String)
  | exitWatcher (srv path : String)

/-- Apply one registry operation to the adapter state. -/
def apply_op (ta : thermometer_adapter) (o : registry_op) : thermometer_adapter :=
  match o with
  | .regFinal s p => (register_watcher ta s p).1
  | .unregFinal s p => (unregister_watcher ta s p).1
  | .enableInt s p => (enable_intermediate ta s p).1
  | .disableInt s p => (disable_intermediate ta s p).1
  | .exitWatcher s p => (watcher_exit ta (s, p)).1

/-- The adapter state created by `thermometer_adapter_register` (`g_new0`:
both watcher lists empty), with an arbitrary attached-device list. -/
def initial_adapter (devices : List thermometer) : thermometer_adapter :=
  { devices := devices, fwatchers := [], iwatchers := [] }

/-- Run a sequence of registry operations from the initial state. -/
def run_ops (devices : List thermometer) (ops : List registry_op) :
    thermometer_adapter :=
  ops.foldl apply_op (initial_adapter devices)

/-- The registry invariant: no duplicate watcher keys in either list, and
every intermediate watcher is also a final watcher. -/
def registry_inv (ta : thermometer_adapter) : Prop :=
  ta.fwatchers.Nodup ∧ ta.iwatchers.Nodup ∧
    ∀ w ∈ ta.iwatchers, w ∈ ta.fwatchers

lemma find_watcher_iff (l : List watcher_key) (srv path : String) :
    find_watcher l srv path = true ↔ (srv, path) ∈ l := by
  simp [find_watcher]

lemma subset_erase_of_subset {iw fw : List watcher_key} {w : watcher_key}
    (hiw : iw.Nodup) (hsub : ∀ x ∈ iw, x ∈ fw) :
    ∀ x ∈ iw.erase w, x ∈ fw.erase w := by
  intro x hx
  obtain ⟨hne, hmem⟩ := hiw.mem_erase_iff.mp hx
  exact (List.mem_erase_of_ne hne).mpr (hsub x hmem)

lemma registry_inv_remove_int (ta : thermometer_adapter) (w : watcher_key)
    (h : registry_inv ta) : registry_inv (remove_int_watcher ta w).1 := by
  obtain ⟨hf, hi, hsub⟩ := h
  unfold remove_int_watcher
  by_cases hw : w ∈ ta.iwatchers
  · simp only [hw, not_true_eq_false, if_neg, reduceIte]
    exact ⟨hf, hi.erase w, fun x hx => hsub x (List.erase_subset w ta.iwatchers hx)⟩
  · simp only [hw, not_false_eq_true, if_pos, reduceIte]
    exact ⟨hf, hi, hsub⟩

lemma registry_inv_erase_final (ta : thermometer_adapter) (w : watcher_key)
    (h : registry_inv ta) :
    registry_inv { (remove_int_watcher ta w).1 with
      fwatchers := (remove_int_watcher ta w).1.fwatchers.erase w } := by
  obtain ⟨hf, hi, hsub⟩ := h
  unfold remove_int_watcher
  by_cases hw : w ∈ ta.iwatchers
  · simp only [hw, not_true_eq_false, if_neg, reduceIte]
    exact ⟨hf.erase w, hi.erase w, subset_erase_of_subset hi hsub⟩
  · simp only [hw, not_false_eq_true, if_pos, reduceIte]
    refine ⟨hf.erase w, hi, fun x hx => ?_⟩
    have hne : x ≠ w := fun he => hw (he ▸ hx)
    exact (List.mem_erase_of_ne hne).mpr (hsub x hx)

lemma registry_inv_apply_op (ta : thermometer_adapter) (o : registry_op)
    (h : registry_inv ta) : registry_inv (apply_op ta o) := by
  obtain ⟨hf, hi, hsub⟩ := h
  cases o with
  | regFinal s p =>
      simp only [apply_op, register_watcher]
      by_cases hw : find_watcher ta.fwatchers s p
      · simp only [hw, reduceIte]; exact ⟨hf, hi, hsub⟩
      · have hmem : (s, p) ∉ ta.fwatchers := fun hm =>
          hw ((find_watcher_iff _ _ _).mpr hm)
        simp only [hw, Bool.false_eq_true, if_neg, reduceIte]
        exact ⟨List.nodup_cons.mpr ⟨hmem, hf⟩, hi,
          fun x hx => List.mem_cons_of_mem _ (hsub x hx)⟩
  | unregFinal s p =>
      simp only [apply_op, unregister_watcher]
      by_cases hw : find_watcher ta.fwatchers s p
      · simp only [hw, not_true_eq_false, if_neg, reduceIte]
        exact registry_inv_erase_final ta (s, p) ⟨hf, hi, hsub⟩
      · simp only [hw, not_false_eq_true, if_pos, reduceIte]
        exact ⟨hf, hi, hsub⟩
  | enableInt s p =>
      simp only [apply_op, enable_intermediate]
      by_cases hw : find_watcher ta.fwatchers s p
      · by_cases hw2 : find_watcher ta.iwatchers s p
        · simp only [hw, hw2, not_true_eq_false, if_neg, reduceIte]
          exact ⟨hf, hi, hsub⟩
        · have hmemf : (s, p) ∈ ta.fwatchers := (find_watcher_iff _ _ _).mp hw
          have hmemi : (s, p) ∉ ta.iwatchers := fun hm =>
            hw2 ((find_watcher_iff _ _ _).mpr hm)
          simp only [hw, hw2, not_true_eq_false, Bool.false_eq_true, if_neg, reduceIte]
          refine ⟨hf, List.nodup_cons.mpr ⟨hmemi, hi⟩, fun x hx => ?_⟩
          rcases List.mem_cons.mp hx with he | hm
          · exact he ▸ hmemf
          · exact hsub x hm
      · simp only [hw, not_false_eq_true, if_pos, reduceIte]
        exact ⟨hf, hi, hsub⟩
  | disableInt s p =>
      simp only [apply_op, disable_intermediate]
      by_cases hw : find_watcher ta.iwatchers s p
      · simp only [hw, not_true_eq_false, if_neg, reduceIte]
        exact registry_inv_remove_int ta (s, p) ⟨hf, hi, hsub⟩
      · simp only [hw, not_false_eq_true, if_pos, reduceIte]
        exact ⟨hf, hi, hsub⟩
  | exitWatcher s p =>
      simp only [apply_op, watcher_exit]
      exact registry_inv_erase_final ta (s, p) ⟨hf, hi, hsub⟩

lemma registry_inv_foldl (ops : List registry_op) (ta : thermometer_adapter)
    (h : registry_inv ta) : registry_inv (ops.foldl apply_op ta) := by
  induction ops generalizing ta with
  | nil => exact h
  | cons o rest ih => exact ih _ (registry_inv_apply_op ta o h)

lemma registry_inv_run (devices : List thermometer) (ops : List registry_op) :
    registry_inv (run_ops devices ops) :=
  registry_inv_foldl ops (initial_adapter devices)
    ⟨List.nodup_nil, List.nodup_nil, by simp [initial_adapter]⟩

/-! ## Truncation characterization of proc_measurement -/

lemma getD_drop (l : List Nat) (i j d : Nat) :
    (l.drop i).getD j d = l.getD (i + j) d := by
  simp [List.getD_eq_getElem?_getD, List.getElem?_drop]

/-- The exact number of payload bytes `proc_measurement` requires: 3-byte
header, flags byte, 4-byte value field, plus 7 bytes when the timestamp flag
is set and 1 byte when the type flag is set (flags byte at offset 3). -/
def needed_len (pdu : List Nat) : Nat :=
  8 + (if pdu.getD 3 0 &&& TEMP_TIME_STAMP ≠ 0 then 7 else 0)
    + (if pdu.getD 3 0 &&& TEMP_TYPE ≠ 0 then 1 else 0)

lemma needed_len_ge (pdu : List Nat) : 8 ≤ needed_len pdu := by
  unfold needed_len; split_ifs <;> omega

lemma proc_measurement_none_iff (t : thermometer) (pdu : List Nat) (final : Bool) :
    proc_measurement t pdu final = none ↔ pdu.length < needed_len pdu := by
  simp only [proc_measurement, proc_timestamp, proc_type, needed_len,
    List.length_drop, getD_drop, List.drop_drop, Nat.add_zero, Nat.reduceAdd]
  split_ifs <;> simp_all
  all_goals try omega
  all_goals (split_ifs <;> simp_all <;> omega)

/-! ## Claim theorems -/

/-- C1: for every measurement payload value field, `proc_measurement` reads
the 4 value bytes as a little-endian 32-bit integer `raw`; the mantissa is the
low 24 bits of `raw`, corrected by subtracting 2^24 when bit 23 is set (a
signed 24-bit two's-complement integer in `[-2^23, 2^23)`); the exponent — the
arithmetic right-shift of `raw` by 24 — equals the sign-extended high byte;
and re-encoding the mantissa/exponent pair restores `raw`, so decoding again
round-trips to the same signed integers. -/
theorem measurement_value_decode_encode_roundtrip (b0 b1 b2 b3 : Nat)
    (h0 : b0 < 256) (h1 : b1 < 256) (h2 : b2 < 256) (h3 : b3 < 256) :
    att_get_u32 [b0, b1, b2, b3] = b0 + 256 * b1 + 65536 * b2 + 16777216 * b3 ∧
    att_get_u32 [b0, b1, b2, b3] < 2 ^ 32 ∧
    (∀ raw : Nat, raw < 2 ^ 32 →
      (meas_mant raw =
        if raw % 2 ^ 24 < 2 ^ 23 then ((raw % 2 ^ 24 : Nat) : Int)
        else ((raw % 2 ^ 24 : Nat) : Int) - 2 ^ 24) ∧
      -(2 ^ 23) ≤ meas_mant raw ∧ meas_mant raw < 2 ^ 23 ∧
      (meas_exp raw =
        if raw / 2 ^ 24 < 2 ^ 7 then ((raw / 2 ^ 24 : Nat) : Int)
        else ((raw / 2 ^ 24 : Nat) : Int) - 2 ^ 8) ∧
      encode_mant_exp (meas_mant raw) (meas_exp raw) = raw ∧
      meas_mant (encode_mant_exp (meas_mant raw) (meas_exp raw)) = meas_mant raw ∧
      meas_exp (encode_mant_exp (meas_mant raw) (meas_exp raw)) = meas_exp raw) := by
  refine ⟨by simp [att_get_u32], by simp [att_get_u32]; omega, fun raw h => ?_⟩
  obtain ⟨hl, hu⟩ := meas_mant_bounds raw
  refine ⟨meas_mant_eq raw, hl, hu, meas_exp_eq raw h, encode_decode_roundtrip raw h,
    ?_, ?_⟩ <;> rw [encode_decode_roundtrip raw h]

/-- Witness for C1 at the value field bytes `[0x00, 0x00, 0x80, 0x80]`
(`raw = 0x80800000`): mantissa −2^23, exponent −128, and the round-trip. -/
theorem measurement_value_decode_encode_roundtrip_witness :
    meas_mant 2155872256 = -8388608 ∧ meas_exp 2155872256 = -128 ∧
    encode_mant_exp (meas_mant 2155872256) (meas_exp 2155872256) = 2155872256 :=
  ⟨by decide, by decide,
    ((measurement_value_decode_encode_roundtrip 0 0 128 128 (by decide) (by decide)
      (by decide) (by decide)).2.2 2155872256 (by decide)).2.2.2.2.1⟩

/-- C2: `proc_measurement` is total over arbitrary payloads (the embedding
only uses guarded list reads) and aborts with the truncated early return
exactly when the payload is shorter than its fields require: fewer than
4 bytes for the 3-byte header plus flags byte, fewer than 8 for the 4-byte
value field, fewer than 15 when the timestamp flag is set, one more byte when
the type flag is set (`needed_len`).  In that case the event is dropped: no
measurement is produced and no watcher is notified; the decoder returns no
thermometer state, and the indication path it runs under returns the cached
state unchanged. -/
theorem truncated_measurement_dropped (t : thermometer) (pdu : List Nat)
    (final : Bool) (fwatchers iwatchers : List watcher_key) :
    (proc_measurement t pdu final = none ↔ pdu.length < needed_len pdu) ∧
    (pdu.length < needed_len pdu →
      proc_measurement_notify fwatchers iwatchers t pdu final = []) ∧
    (∀ ch : characteristic,
      t.chars.find? (fun c => c.value_handle = att_get_u16 pdu 1) = some ch →
      ch.uuid = TEMPERATURE_MEASUREMENT_UUID →
      (ind_handler fwatchers iwatchers t pdu).t = t ∧
      (pdu.length < needed_len pdu →
        (ind_handler fwatchers iwatchers t pdu).notified = [])) := by
  have hnone := proc_measurement_none_iff t pdu final
  have hnonet := proc_measurement_none_iff t pdu true
  refine ⟨hnone, fun h => ?_, fun ch hfind huuid => ?_⟩
  · unfold proc_measurement_notify
    rw [hnone.mpr h]
  · unfold ind_handler
    by_cases h3 : pdu.length < 3
    · simp [h3]
    · simp only [h3, reduceIte, hfind, huuid, if_pos]
      refine ⟨by simp, fun h => ?_⟩
      unfold proc_measurement_notify
      rw [hnonet.mpr h]

/-- Witness for C2 at a 7-byte payload (value field truncated): decoding
aborts and nobody is notified. -/
theorem truncated_measurement_dropped_witness :
    proc_measurement (thermometer_register 0) [2, 5, 0, 0, 1, 2, 3] true = none ∧
    proc_measurement_notify [("s", "p")] [] (thermometer_register 0)
      [2, 5, 0, 0, 1, 2, 3] true = [] := by
  have h := truncated_measurement_dropped (thermometer_register 0)
    [2, 5, 0, 0, 1, 2, 3] true [("s", "p")] []
  exact ⟨h.1.mpr (by decide), h.2.1 (by decide)⟩

/-- C3: for every adapter (any attached-device list) and at every point
reachable by any sequence of register/unregister/enable-intermediate/
disable-intermediate/watcher-disconnect operations, every watcher in the
intermediate watcher list is also in the final watcher list. -/
theorem intermediate_watchers_subset_final (devices : List thermometer)
    (ops : List registry_op) :
    ∀ w ∈ (run_ops devices ops).iwatchers, w ∈ (run_ops devices ops).fwatchers :=
  (registry_inv_run devices ops).2.2

/-- Witness for C3: after registering and intermediate-enabling one watcher,
it sits in both lists. -/
theorem intermediate_watchers_subset_final_witness :
    ("s", "p") ∈ (run_ops []
      [registry_op.regFinal "s" "p", registry_op.enableInt "s" "p"]).iwatchers ∧
    ("s", "p") ∈ (run_ops []
      [registry_op.regFinal "s" "p", registry_op.enableInt "s" "p"]).fwatchers :=
  ⟨by decide,
    intermediate_watchers_subset_final []
      [registry_op.regFinal "s" "p", registry_op.enableInt "s" "p"]
      ("s", "p") (by decide)⟩

/-- C6: the error paths of the watcher registry: re-registering an existing
final watcher replies AlreadyExists, unregistering an unknown one replies
NotFound (`does_not_exist`), enabling intermediate for a non-final watcher
replies NotFound and for an existing intermediate watcher AlreadyExists —
each leaving the adapter state untouched and issuing no CCC write. -/
theorem watcher_registry_error_cases (ta : thermometer_adapter)
    (srv path : String) :
    ((srv, path) ∈ ta.fwatchers →
      register_watcher ta srv path = (ta, .already_exists, [])) ∧
    ((srv, path) ∉ ta.fwatchers →
      unregister_watcher ta srv path = (ta, .does_not_exist, [])) ∧
    ((srv, path) ∉ ta.fwatchers →
      enable_intermediate ta srv path = (ta, .does_not_exist, [])) ∧
    ((srv, path) ∈ ta.fwatchers → (srv, path) ∈ ta.iwatchers →
      enable_intermediate ta srv path = (ta, .already_exists, [])) := by
  refine ⟨fun h => ?_, fun h => ?_, fun h => ?_, fun h1 h2 => ?_⟩ <;>
    simp [register_watcher, unregister_watcher, enable_intermediate,
      find_watcher, *]

/-- Witness for C6 on a concrete one-watcher adapter. -/
theorem watcher_registry_error_cases_witness :
    register_watcher ⟨[], [("s", "p")], []⟩ "s" "p" =
      (⟨[], [("s", "p")], []⟩, .already_exists, []) ∧
    unregister_watcher ⟨[], [("s", "p")], []⟩ "s" "q" =
      (⟨[], [("s", "p")], []⟩, .does_not_exist, []) ∧
    enable_intermediate ⟨[], [("s", "p")], []⟩ "s" "q" =
      (⟨[], [("s", "p")], []⟩, .does_not_exist, []) ∧
    enable_intermediate ⟨[], [("s", "p")], [("s", "p")]⟩ "s" "p" =
      (⟨[], [("s", "p")], [("s", "p")]⟩, .already_exists, []) := by
  have h1 := watcher_registry_error_cases ⟨[], [("s", "p")], []⟩ "s" "p"
  have h2 := watcher_registry_error_cases ⟨[], [("s", "p")], []⟩ "s" "q"
  have h3 := watcher_registry_error_cases ⟨[], [("s", "p")], [("s", "p")]⟩ "s" "p"
  exact ⟨h1.1 (by decide), h2.2.1 (by decide), h2.2.2.1 (by decide),
    h3.2.2.2 (by decide) (by decide)⟩

/-- C7: `write_attr_interval` (the SetProperty("Interval") write path) replies
NotConnected without a live transport, NotAvailable when the Measurement
Interval characteristic was never discovered, and InvalidArgument when the
value lies outside the cached [min, max]; in each failure case no transport
write is issued and the cached state is returned unchanged. -/
theorem set_interval_validation (t : thermometer) (value : Nat) :
    (t.connected = false → write_attr_interval t value = (t, .not_connected, [])) ∧
    (t.connected = true →
      get_characteristic t MEASUREMENT_INTERVAL_UUID = none →
      write_attr_interval t value = (t, .not_available, [])) ∧
    (∀ ch : characteristic, t.connected = true →
      get_characteristic t MEASUREMENT_INTERVAL_UUID = some ch →
      value < t.min ∨ value > t.max →
      write_attr_interval t value = (t, .invalid_arguments, [])) := by
  refine ⟨fun h => ?_, fun h h2 => ?_, fun ch h h2 h3 => ?_⟩ <;>
    simp [write_attr_interval, *]

/-- A connected example thermometer whose Measurement Interval characteristic
(value handle 14) was discovered and whose cached valid range is [5, 10]. -/
def example_thermometer : thermometer :=
  { thermometer_register 0 with
      connected := true,
      chars := [⟨MEASUREMENT_INTERVAL_UUID, 14, []⟩],
      min := 5, max := 10 }

/-- A connected example thermometer with no discovered characteristics. -/
def bare_thermometer : thermometer :=
  { thermometer_register 0 with connected := true }

/-- Witness for C7: on `example_thermometer` (range [5, 10]) writing 11
fails InvalidArgument with no transport write; a disconnected thermometer
fails NotConnected; one without the characteristic fails NotAvailable. -/
theorem set_interval_validation_witness :
    write_attr_interval example_thermometer 11 =
      (example_thermometer, .invalid_arguments, []) ∧
    write_attr_interval (thermometer_register 0) 7 =
      (thermometer_register 0, .not_connected, []) ∧
    write_attr_interval bare_thermometer 7 =
      (bare_thermometer, .not_available, []) := by
  have h1 := set_interval_validation example_thermometer 11
  have h2 := set_interval_validation (thermometer_register 0) 7
  have h3 := set_interval_validation bare_thermometer 7
  refine ⟨h1.2.2 ⟨MEASUREMENT_INTERVAL_UUID, 14, []⟩ rfl ?_ (by decide),
    h2.1 rfl, h3.2.1 rfl ?_⟩ <;>
    simp [get_characteristic, thermometer_register, example_thermometer,
      bare_thermometer]

lemma change_property_max_state (t : thermometer) (v : Nat) :
    (change_property t "Maximum" v).1 = { t with max := v } := by
  simp only [change_property, String.reduceEq, if_neg, reduceIte]
  by_cases h : t.max = v
  · simp only [h, reduceIte]; cases t; simp_all
  · simp only [h, reduceIte]

lemma change_property_min_state (t : thermometer) (v : Nat) :
    (change_property t "Minimum" v).1 = { t with min := v } := by
  simp only [change_property, String.reduceEq, if_neg, reduceIte]
  by_cases h : t.min = v
  · simp only [h, reduceIte]; cases t; simp_all
  · simp only [h, reduceIte]

/-- C8: the Valid Range descriptor read callback requires at least 4 value
bytes and rejects ranges with `min == 0 || min > max`; an invalid range leaves
the cached properties (and everything else) unchanged and emits no signal,
while a valid one updates the cached Maximum and Minimum. -/
theorem valid_range_validation (t : thermometer) (value : List Nat) :
    (value.length < 4 → valid_range_desc_cb t value = (t, [])) ∧
    (4 ≤ value.length →
      att_get_u16 value 0 = 0 ∨ att_get_u16 value 0 > att_get_u16 value 2 →
      valid_range_desc_cb t value = (t, [])) ∧
    (4 ≤ value.length → att_get_u16 value 0 ≠ 0 →
      att_get_u16 value 0 ≤ att_get_u16 value 2 →
      (valid_range_desc_cb t value).1 =
        { t with max := att_get_u16 value 2, min := att_get_u16 value 0 }) := by
  refine ⟨fun h => ?_, fun h h2 => ?_, fun h h2 h3 => ?_⟩
  · simp [valid_range_desc_cb, h]
  · simp only [valid_range_desc_cb]
    rw [if_neg (by omega), if_pos (by omega)]
  · simp only [valid_range_desc_cb]
    rw [if_neg (by omega), if_neg (by omega)]
    simp [change_property_max_state, change_property_min_state]

/-- Witness for C8: `[0,0,10,0]` (min 0) and `[5,0,1,0]` (min 5 > max 1) are
ignored; `[5,0,10,0]` (min 5, max 10) updates the cached range. -/
theorem valid_range_validation_witness :
    valid_range_desc_cb bare_thermometer [0, 0, 10, 0] = (bare_thermometer, []) ∧
    valid_range_desc_cb bare_thermometer [5, 0, 1, 0] = (bare_thermometer, []) ∧
    (valid_range_desc_cb bare_thermometer [5, 0, 10, 0]).1.max = 10 ∧
    (valid_range_desc_cb bare_thermometer [5, 0, 10, 0]).1.min = 5 := by
  have h1 := valid_range_validation bare_thermometer [0, 0, 10, 0]
  have h2 := valid_range_validation bare_thermometer [5, 0, 1, 0]
  have h3 := valid_range_validation bare_thermometer [5, 0, 10, 0]
  refine ⟨h1.2.1 (by decide) (by decide), h2.2.1 (by decide) (by decide), ?_, ?_⟩ <;>
    rw [h3.2.2 (by decide) (by decide) (by decide)] <;> decide

/-- A thermometer whose has-interval flag is set with cached interval 5. -/
def cached_interval_thermometer : thermometer :=
  { thermometer_register 0 with has_interval := true, interval := 5 }

/-- C9 counterexample: on a thermometer whose has-interval flag is set and
whose cached interval already equals 5, two consecutive
`change_property "Interval" 5` calls emit zero property-changed
notifications, not exactly one as claimed. -/
theorem change_property_two_equal_calls_counterexample :
    ¬ ((change_property cached_interval_thermometer "Interval" 5).2 ++
       (change_property (change_property cached_interval_thermometer "Interval" 5).1
         "Interval" 5).2).length = 1 := by
  decide

/-- C9 (amended): `change_property` is idempotent — a call whose value equals
the cached value of the named property (for Interval additionally requiring
the has-interval flag to be set) is a no-op emitting no notification; on an
actual change it updates the cache and emits exactly one notification;
unknown property names leave all state unchanged.  Consequently the second of
two consecutive calls with the same Interval value is always a no-op, and the
two calls together emit exactly one notification when the first call actually
changes something (value differs from the cache or the has-interval flag is
unset) and zero notifications when the first call is itself already a no-op. -/
theorem change_property_idempotent (t : thermometer) (value : Nat) :
    (t.intermediate = value → change_property t "Intermediate" value = (t, [])) ∧
    (t.has_interval = true → t.interval = value →
      change_property t "Interval" value = (t, [])) ∧
    (t.max = value → change_property t "Maximum" value = (t, [])) ∧
    (t.min = value → change_property t "Minimum" value = (t, [])) ∧
    (¬ (t.has_interval = true ∧ t.interval = value) →
      change_property t "Interval" value =
        ({ t with has_interval := true, interval := value }, ["Interval"])) ∧
    (∀ name, name ≠ "Intermediate" → name ≠ "Interval" → name ≠ "Maximum" →
      name ≠ "Minimum" → change_property t name value = (t, [])) ∧
    (change_property (change_property t "Interval" value).1 "Interval" value =
      ((change_property t "Interval" value).1, [])) ∧
    ((change_property t "Interval" value).2 ++
      (change_property (change_property t "Interval" value).1 "Interval" value).2).length =
      (if t.has_interval = true ∧ t.interval = value then 0 else 1) := by
  refine ⟨fun h => ?_, fun h h2 => ?_, fun h => ?_, fun h => ?_, fun h => ?_,
    fun name hn1 hn2 hn3 hn4 => ?_, ?_, ?_⟩
  · simp [change_property, h]
  · simp [change_property, h, h2]
  · simp [change_property, h]
  · simp [change_property, h]
  · simp only [change_property, String.reduceEq, if_neg, reduceIte]
    rw [if_neg (by tauto)]
  · simp [change_property, hn1, hn2, hn3, hn4]
  · by_cases h : t.has_interval = true ∧ t.interval = value
    · have hfirst : change_property t "Interval" value = (t, []) := by
        simp [change_property, h.1, h.2]
      rw [hfirst]
      exact hfirst
    · have hfirst : change_property t "Interval" value =
          ({ t with has_interval := true, interval := value }, ["Interval"]) := by
        simp only [change_property, String.reduceEq, if_neg, reduceIte]
        rw [if_neg h]
      rw [hfirst]
      simp [change_property]
  · by_cases h : t.has_interval = true ∧ t.interval = value
    · have hfirst : change_property t "Interval" value = (t, []) := by
        simp [change_property, h.1, h.2]
      rw [hfirst, hfirst]
      simp [h]
    · have hfirst : change_property t "Interval" value =
          ({ t with has_interval := true, interval := value }, ["Interval"]) := by
        simp only [change_property, String.reduceEq, if_neg, reduceIte]
        rw [if_neg h]
      rw [hfirst]
      simp [change_property, h]

/-- Witness for C9 (amended) on a fresh thermometer and value 7: the first
call notifies, the second is a no-op, total exactly one notification. -/
theorem change_property_idempotent_witness :
    change_property (change_property (thermometer_register 0) "Interval" 7).1
      "Interval" 7 = ((change_property (thermometer_register 0) "Interval" 7).1, []) ∧
    ((change_property (thermometer_register 0) "Interval" 7).2 ++
      (change_property (change_property (thermometer_register 0) "Interval" 7).1
        "Interval" 7).2).length = 1 ∧
    change_property cached_interval_thermometer "Interval" 5 =
      (cached_interval_thermometer, []) := by
  have h1 := change_property_idempotent (thermometer_register 0) 7
  have h2 := change_property_idempotent cached_interval_thermometer 5
  refine ⟨h1.2.2.2.2.2.2.1, ?_, h2.2.1 (by decide) (by decide)⟩
  rw [h1.2.2.2.2.2.2.2]
  decide

/-- C10: a freshly registered thermometer is zero-initialized, so its cached
minimum and maximum are both 0; as long as no valid range has been applied,
`write_attr_interval` on a connected thermometer with the discovered
Measurement Interval characteristic rejects every positive value as
InvalidArgument (no transport write), and only 0 passes the range check and
issues the transport write. -/
theorem zero_initialized_range_rejects_positive (t : thermometer)
    (ch : characteristic) (hconn : t.connected = true)
    (hch : get_characteristic t MEASUREMENT_INTERVAL_UUID = some ch)
    (hint : t.has_interval = true) (hmin : t.min = 0) (hmax : t.max = 0) :
    (∀ d, (thermometer_register d).min = 0 ∧ (thermometer_register d).max = 0) ∧
    (∀ value, 0 < value →
      write_attr_interval t value = (t, .invalid_arguments, [])) ∧
    write_attr_interval t 0 = (t, .ok, [⟨ch.value_handle, 0⟩]) := by
  refine ⟨fun d => ⟨rfl, rfl⟩, fun value hv => ?_, ?_⟩
  · simp [write_attr_interval, hconn, hch]
    omega
  · simp [write_attr_interval, hconn, hch, hmin, hmax]

/-- A connected thermometer with the Measurement Interval characteristic
discovered, interval established, and the zero-initialized range untouched. -/
def zero_range_thermometer : thermometer :=
  { thermometer_register 3 with
      connected := true,
      chars := [⟨MEASUREMENT_INTERVAL_UUID, 14, []⟩],
      has_interval := true }

/-- Witness for C10 on `zero_range_thermometer`: value 1 is rejected, value 0
passes and issues the write. -/
theorem zero_initialized_range_rejects_positive_witness :
    write_attr_interval zero_range_thermometer 1 =
      (zero_range_thermometer, .invalid_arguments, []) ∧
    write_attr_interval zero_range_thermometer 0 =
      (zero_range_thermometer, .ok, [⟨14, 0⟩]) := by
  have h := zero_initialized_range_rejects_positive zero_range_thermometer
    ⟨MEASUREMENT_INTERVAL_UUID, 14, []⟩ rfl (by decide) rfl rfl rfl
  exact ⟨h.2.1 1 (by decide), h.2.2⟩

/-! ## CCC write bookkeeping for the watcher-count transitions -/

/-- A thermometer on which `write_ccc` for `uuid` can actually reach the
transport: the characteristic was discovered and carries a CCC descriptor. -/
def ccc_ready (t : thermometer) (uuid : String) : Bool :=
  match get_characteristic t uuid with
  | none => false
  | some ch => (get_descriptor ch GATT_CLIENT_CHARAC_CFG_UUID).isSome

lemma write_ccc_eq (t : thermometer) (uuid : String) (v : Nat) :
    write_ccc t uuid v =
      if t.connected && ccc_ready t uuid then [⟨t.dev, uuid, v⟩] else [] := by
  unfold write_ccc ccc_ready
  cases t.connected with
  | false => simp
  | true =>
      simp only [Bool.true_and, Bool.false_eq_true, if_neg, reduceIte]
      cases hch : get_characteristic t uuid with
      | none => simp
      | some ch =>
          cases hd : get_descriptor ch GATT_CLIENT_CHARAC_CFG_UUID with
          | none => simp [hd]
          | some d => simp [hd]

lemma flatMap_write_ccc (devices : List thermometer) (uuid : String) (v : Nat)
    (h : ∀ t ∈ devices, t.connected = true → ccc_ready t uuid = true) :
    devices.flatMap (fun t => write_ccc t uuid v) =
      (devices.filter (fun t => t.connected)).map
        (fun t => ({ dev := t.dev, uuid := uuid, value := v } : ccc_write)) := by
  induction devices with
  | nil => rfl
  | cons a l ih =>
      have ha := h a (List.mem_cons_self a l)
      have hl : ∀ t ∈ l, t.connected = true → ccc_ready t uuid = true :=
        fun t ht => h t (List.mem_cons_of_mem a ht)
      cases hc : a.connected with
      | false =>
          rw [List.flatMap_cons, write_ccc_eq, ih hl]
          simp [hc, List.filter_cons]
      | true =>
          rw [List.flatMap_cons, write_ccc_eq, ih hl]
          simp [hc, ha hc, List.filter_cons]

/-- The CCC writes issued to all currently connected thermometers of an
adapter: exactly one per connected device, in device-list order. -/
def writes_to_connected (devices : List thermometer) (uuid : String) (v : Nat) :
    List ccc_write :=
  (devices.filter (fun t => t.connected)).map
    (fun t => ({ dev := t.dev, uuid := uuid, value := v } : ccc_write))

/-- All connected devices of the adapter have discovered both measurement
characteristics together with their CCC descriptors (discovery finished). -/
def devices_configured (devices : List thermometer) : Prop :=
  ∀ t ∈ devices, t.connected = true →
    ccc_ready t TEMPERATURE_MEASUREMENT_UUID = true ∧
    ccc_ready t INTERMEDIATE_TEMPERATURE_UUID = true

lemma unregister_watcher_writes (ta : thermometer_adapter) (srv path : String)
    (h1 : (srv, path) ∈ ta.fwatchers) :
    (unregister_watcher ta srv path).2.2 =
      (if (srv, path) ∈ ta.iwatchers ∧ ta.iwatchers.erase (srv, path) = []
       then disable_intermediate_measurement ta.devices else []) ++
      (if ta.fwatchers.erase (srv, path) = []
       then disable_final_measurement ta.devices else []) := by
  have hf : find_watcher ta.fwatchers srv path = true := by
    simp [find_watcher, h1]
  by_cases hiw : (srv, path) ∈ ta.iwatchers
  · have hle : (ta.iwatchers.erase (srv, path)).length = ta.iwatchers.length - 1 :=
      List.length_erase_of_mem hiw
    by_cases hie : ta.iwatchers.erase (srv, path) = []
    · have hl0 : ta.iwatchers.length - 1 = 0 := by rw [← hle, hie]; rfl
      by_cases hfe : ta.fwatchers.erase (srv, path) = [] <;>
        simp [unregister_watcher, remove_int_watcher, hf, hiw, hie, hfe,
          List.length_eq_zero, hl0]
    · have hl0 : ¬ ta.iwatchers.length - 1 = 0 := by
        rw [← hle]; simpa [List.length_eq_zero] using hie
      by_cases hfe : ta.fwatchers.erase (srv, path) = [] <;>
        simp [unregister_watcher, remove_int_watcher, hf, hiw, hie, hfe,
          List.length_eq_zero, hl0]
  · by_cases hfe : ta.fwatchers.erase (srv, path) = [] <;>
      simp [unregister_watcher, remove_int_watcher, hf, hiw, hfe,
        List.length_eq_zero]

/-- C4: on an adapter whose connected thermometers completed discovery, the
0→1 transition of the final-watcher count (first registration) issues exactly
one indication-enable CCC write per currently attached, connected thermometer;
the 1→0 transition (last removal) issues exactly one disable write per such
thermometer; the intermediate-watcher count behaves the same with
notification-enable/disable writes; and transitions that do not cross zero
issue no CCC write.  The unregistration conjunct characterizes the complete
write list of the operation, including the cascade in which the removed final
watcher was also an intermediate watcher: each watcher class whose count
crosses 1→0 contributes exactly one disable write per connected thermometer
(the intermediate disables from `remove_int_watcher` first, then the final
disables), and a class whose count does not cross zero contributes none. -/
theorem ccc_writes_on_watcher_count_transitions (ta : thermometer_adapter)
    (srv path : String) (hconf : devices_configured ta.devices) :
    (ta.fwatchers = [] →
      (register_watcher ta srv path).2.2 =
        writes_to_connected ta.devices TEMPERATURE_MEASUREMENT_UUID
          GATT_CLIENT_CHARAC_CFG_IND_BIT) ∧
    (ta.fwatchers ≠ [] → (register_watcher ta srv path).2.2 = []) ∧
    ((srv, path) ∈ ta.fwatchers →
      (unregister_watcher ta srv path).2.2 =
        (if (srv, path) ∈ ta.iwatchers ∧ ta.iwatchers.erase (srv, path) = []
         then writes_to_connected ta.devices INTERMEDIATE_TEMPERATURE_UUID 0x0000
         else []) ++
        (if ta.fwatchers.erase (srv, path) = []
         then writes_to_connected ta.devices TEMPERATURE_MEASUREMENT_UUID 0x0000
         else [])) ∧
    ((srv, path) ∈ ta.fwatchers → ta.iwatchers = [] →
      (enable_intermediate ta srv path).2.2 =
        writes_to_connected ta.devices INTERMEDIATE_TEMPERATURE_UUID
          GATT_CLIENT_CHARAC_CFG_NOTIF_BIT) ∧
    ((srv, path) ∈ ta.fwatchers → ta.iwatchers ≠ [] →
      (enable_intermediate ta srv path).2.2 = []) ∧
    ((srv, path) ∈ ta.iwatchers → ta.iwatchers.erase (srv, path) = [] →
      (disable_intermediate ta srv path).2.2 =
        writes_to_connected ta.devices INTERMEDIATE_TEMPERATURE_UUID 0x0000) ∧
    ((srv, path) ∈ ta.iwatchers → ta.iwatchers.erase (srv, path) ≠ [] →
      (disable_intermediate ta srv path).2.2 = []) := by
  have hfm : ∀ t ∈ ta.devices, t.connected = true →
      ccc_ready t TEMPERATURE_MEASUREMENT_UUID = true :=
    fun t ht hc => (hconf t ht hc).1
  have him : ∀ t ∈ ta.devices, t.connected = true →
      ccc_ready t INTERMEDIATE_TEMPERATURE_UUID = true :=
    fun t ht hc => (hconf t ht hc).2
  have hid : disable_intermediate_measurement ta.devices =
      writes_to_connected ta.devices INTERMEDIATE_TEMPERATURE_UUID 0x0000 := by
    unfold disable_intermediate_measurement writes_to_connected
    exact flatMap_write_ccc ta.devices _ _ him
  have hfd : disable_final_measurement ta.devices =
      writes_to_connected ta.devices TEMPERATURE_MEASUREMENT_UUID 0x0000 := by
    unfold disable_final_measurement writes_to_connected
    exact flatMap_write_ccc ta.devices _ _ hfm
  refine ⟨fun h => ?_, fun h => ?_, fun h1 => ?_, fun h1 h2 => ?_,
    fun h1 h2 => ?_, fun h1 h2 => ?_, fun h1 h2 => ?_⟩
  · have hnf : ¬ find_watcher ta.fwatchers srv path = true := by
      simp [find_watcher, h]
    simp only [register_watcher, hnf, Bool.false_eq_true, if_neg, reduceIte, h,
      List.length_nil, enable_final_measurement]
    exact flatMap_write_ccc ta.devices _ _ hfm
  · by_cases hf : find_watcher ta.fwatchers srv path
    · simp [register_watcher, hf]
    · have hlen : ta.fwatchers.length ≠ 0 := by
        simpa [List.length_eq_zero] using h
      simp [register_watcher, hf, hlen]
  · rw [unregister_watcher_writes ta srv path h1, hid, hfd]
  · have hf : find_watcher ta.fwatchers srv path = true := by
      simp [find_watcher, h1]
    have hni : ¬ find_watcher ta.iwatchers srv path = true := by
      simp [find_watcher, h2]
    simp only [enable_intermediate, hf, not_true_eq_false, if_neg, reduceIte,
      hni, Bool.false_eq_true, h2, List.length_nil, enable_intermediate_measurement]
    exact flatMap_write_ccc ta.devices _ _ him
  · have hf : find_watcher ta.fwatchers srv path = true := by
      simp [find_watcher, h1]
    have hlen : ta.iwatchers.length ≠ 0 := by
      simpa [List.length_eq_zero] using h2
    by_cases hw2 : find_watcher ta.iwatchers srv path
    · simp [enable_intermediate, hf, hw2]
    · simp [enable_intermediate, hf, hw2, hlen]
  · have hi : find_watcher ta.iwatchers srv path = true := by
      simp [find_watcher, h1]
    simp only [disable_intermediate, hi, not_true_eq_false, if_neg, reduceIte,
      remove_int_watcher, h1, List.length_nil, h2,
      disable_intermediate_measurement]
    exact flatMap_write_ccc ta.devices _ _ him
  · have hi : find_watcher ta.iwatchers srv path = true := by
      simp [find_watcher, h1]
    have hlen : (ta.iwatchers.erase (srv, path)).length ≠ 0 := by
      simpa [List.length_eq_zero] using h2
    have hlen2 : ¬ ta.iwatchers.length - 1 = 0 := by
      rwa [List.length_erase_of_mem h1] at hlen
    simp [disable_intermediate, hi, remove_int_watcher, h1, hlen2]

/-- A connected, fully configured thermometer with device id 1. -/
def therm_one : thermometer :=
  { thermometer_register 1 with
      connected := true,
      chars := [⟨TEMPERATURE_MEASUREMENT_UUID, 5, [⟨6, GATT_CLIENT_CHARAC_CFG_UUID⟩]⟩,
                ⟨INTERMEDIATE_TEMPERATURE_UUID, 8, [⟨9, GATT_CLIENT_CHARAC_CFG_UUID⟩]⟩] }

/-- A connected, fully configured thermometer with device id 2. -/
def therm_two : thermometer :=
  { thermometer_register 2 with
      connected := true,
      chars := [⟨TEMPERATURE_MEASUREMENT_UUID, 15, [⟨16, GATT_CLIENT_CHARAC_CFG_UUID⟩]⟩,
                ⟨INTERMEDIATE_TEMPERATURE_UUID, 18, [⟨19, GATT_CLIENT_CHARAC_CFG_UUID⟩]⟩] }

/-- An adapter with two attached, connected, configured thermometers and no
watchers yet. -/
def two_device_adapter : thermometer_adapter := ⟨[therm_one, therm_two], [], []⟩

/-- The two-device adapter after the first final-watcher registration. -/
def adapter_one_final : thermometer_adapter :=
  (register_watcher two_device_adapter "s" "p").1

/-- `adapter_one_final` after the watcher also enabled intermediate
measurements (so it is the last final AND the last intermediate watcher). -/
def adapter_final_and_int : thermometer_adapter :=
  (enable_intermediate adapter_one_final "s" "p").1

/-- Witness for C4 on `two_device_adapter`: the first final-watcher
registration issues exactly one indication-enable write per thermometer (two
writes total); the last removal issues exactly one disable write each; and in
the cascade case — the removed final watcher was also the last intermediate
watcher — the removal issues exactly one intermediate disable and one final
disable per thermometer. -/
theorem ccc_writes_on_watcher_count_transitions_witness :
    (register_watcher two_device_adapter "s" "p").2.2 =
      [⟨1, TEMPERATURE_MEASUREMENT_UUID, GATT_CLIENT_CHARAC_CFG_IND_BIT⟩,
       ⟨2, TEMPERATURE_MEASUREMENT_UUID, GATT_CLIENT_CHARAC_CFG_IND_BIT⟩] ∧
    (unregister_watcher adapter_one_final "s" "p").2.2 =
      [⟨1, TEMPERATURE_MEASUREMENT_UUID, 0⟩, ⟨2, TEMPERATURE_MEASUREMENT_UUID, 0⟩] ∧
    (unregister_watcher adapter_final_and_int "s" "p").2.2 =
      [⟨1, INTERMEDIATE_TEMPERATURE_UUID, 0⟩, ⟨2, INTERMEDIATE_TEMPERATURE_UUID, 0⟩,
       ⟨1, TEMPERATURE_MEASUREMENT_UUID, 0⟩, ⟨2, TEMPERATURE_MEASUREMENT_UUID, 0⟩] := by
  have h := ccc_writes_on_watcher_count_transitions two_device_adapter
    "s" "p" (by unfold devices_configured; decide)
  have h2 := ccc_writes_on_watcher_count_transitions adapter_one_final "s" "p"
    (by unfold devices_configured; decide)
  have h3 := ccc_writes_on_watcher_count_transitions adapter_final_and_int "s" "p"
    (by unfold devices_configured; decide)
  refine ⟨?_, ?_, ?_⟩
  · rw [h.1 rfl]; decide
  · rw [h2.2.2.1 (by decide)]; decide
  · rw [h3.2.2.1 (by decide)]; decide

/-- C5 counterexample: a 3-byte indication frame whose attribute handle (9)
matches no discovered characteristic is dropped by `ind_handler` with NO
confirmation sent, contradicting the claim that a confirmation is sent
whether or not the value handle matched a known characteristic. -/
theorem indication_unknown_handle_no_confirmation :
    (ind_handler [] [] therm_one [29, 9, 0]).confirmed = false := by
  decide

/-- C5 (amended): `ind_handler` sends a confirmation frame whenever the frame
is at least 3 bytes and its value handle matches a known characteristic —
regardless of which characteristic it is and of whether the payload decodes
successfully or fails; for a short frame or an unmatched handle the handler
returns early and no confirmation is sent. -/
theorem indication_confirmation_on_matched_handle
    (fwatchers iwatchers : List watcher_key) (t : thermometer) (pdu : List Nat)
    (h3 : 3 ≤ pdu.length)
    (hfound : (t.chars.find? (fun ch => ch.value_handle = att_get_u16 pdu 1)).isSome
      = true) :
    (ind_handler fwatchers iwatchers t pdu).confirmed = true := by
  unfold ind_handler
  rw [if_neg (by omega)]
  cases hf : t.chars.find? (fun ch => ch.value_handle = att_get_u16 pdu 1) with
  | none => rw [hf] at hfound; simp at hfound
  | some ch => simp only [hf]; split_ifs <;> rfl

/-- Witness for C5 (amended): a matched Temperature Measurement indication
whose payload is truncated (decode fails) still gets its confirmation. -/
theorem indication_confirmation_on_matched_handle_witness :
    (ind_handler [] [] therm_one [29, 5, 0]).confirmed = true ∧
    proc_measurement therm_one [29, 5, 0] true = none :=
  ⟨indication_confirmation_on_matched_handle [] [] therm_one [29, 5, 0]
    (by decide) (by decide), by decide⟩

end BlueZThermometer
